import Mathlib

/-!
Shallow embedding of `src/annotationframeworkclient/materializationengine.py`
(the materialization-engine client of AnnotationFrameworkClient) and proofs
about the request-construction behaviour of its methods.

The module under verification builds HTTP requests: it resolves optional
`datastack_name` / `materialization_version` arguments against client
defaults, formats endpoint URL templates, assembles JSON request bodies
(with a custom `json.JSONEncoder` subclass, `MEEncoder`), and passes
responses through `raise_for_status` / `.json()`.

Python values that can appear in request bodies are modelled by `PyVal`,
JSON documents by `JVal`, Python exceptions relevant here by `PyErr`, and
`str.format_map` over an endpoint template by `formatMap` over a list of
literal/field segments.
-/

set_option autoImplicit false

/-- A JSON document, as produced by `json.dumps`: null, number, string,
array or object (object = ordered key/value pairs, as Python dicts are
insertion-ordered). -/
inductive JVal where
  | null : JVal
  | num (n : Int) : JVal
  | str (s : String) : JVal
  | arr (l : List JVal) : JVal
  | obj (l : List (String × JVal)) : JVal

/-- A Python value that can appear in a `query_table` request body:
JSON-basic values (`None`, `int`, `str`, `list`, `dict` with string keys)
plus the extended types handled by `MEEncoder` (lines 13-21 of the source):
1-D integer `numpy.ndarray`, `numpy.uint64`, `datetime.date` and
`datetime.datetime` (modelled to second precision, microsecond 0). -/
inductive PyVal where
  | noneV : PyVal
  | int (n : Int) : PyVal
  | str (s : String) : PyVal
  | list (l : List PyVal) : PyVal
  | dict (l : List (String × PyVal)) : PyVal
  | ndarray (l : List Int) : PyVal
  | uint64 (n : Nat) : PyVal
  | date (y m d : Nat) : PyVal
  | datetime (y m d hh mm ss : Nat) : PyVal

/-- The Python exceptions the embedded code can raise, plus the
`requests.HTTPError` raised by `raise_for_status` (which carries the
status code and the response body). -/
inductive PyErr where
  | assertionError : PyErr
  | nameError (missing : String) : PyErr
  | keyError (key : String) : PyErr
  | typeError : PyErr
  | httpError (status : Nat) (body : JVal) : PyErr

/-- Zero-pad a numeral to two digits, as Python `isoformat` does. -/
def pad2 (n : Nat) : String :=
  if n < 10 then "0" ++ toString n else toString n

/-- Zero-pad a numeral to four digits, as Python `isoformat` does for years. -/
def pad4 (n : Nat) : String :=
  if n < 10 then "000" ++ toString n
  else if n < 100 then "00" ++ toString n
  else if n < 1000 then "0" ++ toString n
  else toString n

/-- `datetime.date.isoformat`: the ISO-8601 date string YYYY-MM-DD. -/
def date_isoformat (y m d : Nat) : String :=
  pad4 y ++ "-" ++ pad2 m ++ "-" ++ pad2 d

/-- `datetime.datetime.isoformat` (microsecond 0): the ISO-8601 string
YYYY-MM-DDTHH:MM:SS. -/
def datetime_isoformat (y m d hh mm ss : Nat) : String :=
  date_isoformat y m d ++ "T" ++ pad2 hh ++ ":" ++ pad2 mm ++ ":" ++ pad2 ss

/-- `MEEncoder.default` (source lines 14-21): `numpy.ndarray` goes to
`obj.tolist()` (a plain list of Python ints for a 1-D integer array),
`numpy.uint64` to `int(obj)`, `datetime`/`date` to `obj.isoformat()`;
anything else falls through to `json.JSONEncoder.default`, which raises
`TypeError` (modelled as `none`). -/
def MEEncoder_default : PyVal → Option PyVal
  | PyVal.ndarray l => some (PyVal.list (l.map PyVal.int))
  | PyVal.uint64 n => some (PyVal.int n)
  | PyVal.datetime y m d hh mm ss => some (PyVal.str (datetime_isoformat y m d hh mm ss))
  | PyVal.date y m d => some (PyVal.str (date_isoformat y m d))
  | _ => none

/-- Encode one JSON-basic leaf value (int or string); the values
`MEEncoder.default` returns contain only these. -/
def encodeLeaf : PyVal → Option JVal
  | PyVal.int n => some (JVal.num n)
  | PyVal.str s => some (JVal.str s)
  | _ => none

/-- Encode a list of JSON-basic leaf values. -/
def encodeLeafList : List PyVal → Option (List JVal)
  | [] => some []
  | x :: xs => do pure ((← encodeLeaf x) :: (← encodeLeafList xs))

/-- Encode the value returned by `MEEncoder.default`. Its possible results
(a list of ints from `tolist()`, an `int`, or an ISO string) are all
JSON-basic, so one non-recursive pass suffices. -/
def encodeDefaultResult : PyVal → Option JVal
  | PyVal.list l => (encodeLeafList l).map JVal.arr
  | PyVal.int n => some (JVal.num n)
  | PyVal.str s => some (JVal.str s)
  | _ => none

mutual

/-- `json.dumps(-, cls=MEEncoder)`: JSON-basic values are serialized
structurally; any other value is passed to `MEEncoder.default` and the
(JSON-basic) result is then serialized. `none` models a raised
`TypeError` for unserializable values. -/
def dumps : PyVal → Option JVal
  | PyVal.noneV => some JVal.null
  | PyVal.int n => some (JVal.num n)
  | PyVal.str s => some (JVal.str s)
  | PyVal.list l => (dumpsList l).map JVal.arr
  | PyVal.dict l => (dumpsPairs l).map JVal.obj
  | v => (MEEncoder_default v).bind encodeDefaultResult

/-- Serialize each element of a Python list. -/
def dumpsList : List PyVal → Option (List JVal)
  | [] => some []
  | x :: xs => do pure ((← dumps x) :: (← dumpsList xs))

/-- Serialize each entry of a Python dict (insertion order preserved). -/
def dumpsPairs : List (String × PyVal) → Option (List (String × JVal))
  | [] => some []
  | (k, v) :: xs => do pure ((k, ← dumps v) :: (← dumpsPairs xs))

end

example : dumps (PyVal.ndarray [1, 2]) = some (JVal.arr [JVal.num 1, JVal.num 2]) := rfl

example : dumps (PyVal.date 2023 4 5) = some (JVal.str "2023-04-05") := rfl

/-- Insertion-ordered Python dict update `d[k] = v`: if `k` is present its
value is replaced in place (first, and only, occurrence), otherwise the
pair is appended, as Python dicts preserve insertion order. -/
def dictSet {A : Type} : List (String × A) → String → A → List (String × A)
  | [], k, v => [(k, v)]
  | (k1, v1) :: rest, k, v =>
    if k1 == k then (k, v) :: rest else (k1, v1) :: dictSet rest k v

/-- Python dict lookup `d.get(k)`: the value at the first matching key. -/
def dictGet {A : Type} : List (String × A) → String → Option A
  | [], _ => none
  | (k1, v1) :: rest, k => if k1 == k then some v1 else dictGet rest k

/-- One segment of an endpoint URL template: a literal piece or a
`\x7bfield\x7d` placeholder to be substituted by `str.format_map`. -/
inductive Seg where
  | lit (s : String) : Seg
  | field (k : String) : Seg

/-- `template.format_map(mapping)`: substitute each placeholder from the
mapping; a missing key raises `KeyError` (modelled as `Except.error`
carrying the missing key). -/
def formatMap : List Seg → List (String × String) → Except String String
  | [], _ => Except.ok ""
  | Seg.lit s :: rest, m => (formatMap rest m).map (fun t => s ++ t)
  | Seg.field k :: rest, m =>
    match dictGet m k with
    | some v => (formatMap rest m).map (fun t => v ++ t)
    | none => Except.error k

/-- Modelled from the spec: the client session state held by the base
class (`base.py`, which is not under `src/`): server address, auth
header, resolved API version, the endpoint template registry, the base
URL mapping (`default_url_mapping`, supplied to each call as a fresh
per-call copy so that per-call updates never persist), and the default
datastack name and materialization version exposed by the
`datastack_name` / `version` properties (source lines 74-80). -/
structure Client where
  server_address : String
  auth_header : List (String × String)
  api_version : Nat
  endpoints : String → List Seg
  default_url_mapping : List (String × String)
  datastack_name : String
  version : Nat

/-- An HTTP GET request as issued through `self.session.get`: the
formatted URL and the query parameters. -/
structure GetRequest where
  url : String
  params : List (String × String)

/-- An HTTP response as seen by this client; `body` is the value
`.json()` parses out of it. -/
structure HttpResponse where
  status_code : Nat
  body : JVal

/-- `requests.Response.raise_for_status`: raises `HTTPError` (carrying
the status code and the response body) for 4xx and 5xx status codes and
returns normally for everything below 400. -/
def raise_for_status (r : HttpResponse) : Except PyErr Unit :=
  if 400 ≤ r.status_code then Except.error (PyErr.httpError r.status_code r.body)
  else Except.ok ()

/-- `get_tables` (source lines 92-117): resolve the datastack name
against the client default, put it into the URL mapping, format the
"tables" endpoint template, GET it, `raise_for_status`, and return the
parsed JSON. The `version` argument is accepted and never used (the
source's TODO at line 112). `net` stands for the network: the response
the server returns for a request. The second component of the result
lists the requests actually issued (the source issues exactly one and
never retries). -/
def getTables (c : Client) (datastack_name : Option String) (version : Option Nat)
    (net : GetRequest → HttpResponse) : Except PyErr JVal × List GetRequest :=
  let ds := datastack_name.getD c.datastack_name
  let m := dictSet c.default_url_mapping "datastack_name" ds
  match formatMap (c.endpoints "tables") m with
  | Except.error k => (Except.error (PyErr.keyError k), [])
  | Except.ok url =>
    let req : GetRequest := ⟨url, []⟩
    let resp := net req
    match raise_for_status resp with
    | Except.error e => (Except.error e, [req])
    | Except.ok _ => (Except.ok resp.body, [req])

/-- `get_annotation_count` (source lines 119-148): its first statement,
`if aligned_volume_name is None:` (line 137), reads the name
`aligned_volume_name`, which is neither a parameter of the method (the
parameters are `table_name`, `datastack_name`, `version`) nor defined
anywhere in the module, so every call raises `NameError` immediately;
the URL formatting and the GET of lines 140-148 are unreachable and no
request is ever issued. -/
def getAnnotationCount (c : Client) (table_name : String)
    (datastack_name : Option String) (version : Option Nat)
    (net : GetRequest → HttpResponse) : Except PyErr JVal × List GetRequest :=
  (Except.error (PyErr.nameError "aligned_volume_name"), [])

/-- The `annotation_ids` argument of `get_annotation`: either a single
(non-iterable) integer ID or a list of integer IDs. -/
inductive AnnIds where
  | scalar (n : Nat) : AnnIds
  | idList (l : List Nat) : AnnIds

/-- Source lines 212-215: `iter(annotation_ids)` raises `TypeError` on a
plain integer, and the except-branch wraps it as `[annotation_ids]`; a
list is left as is. -/
def annIdsToList : AnnIds → List Nat
  | AnnIds.scalar n => [n]
  | AnnIds.idList l => l

/-- `get_annotation` (source lines 180-222) up to the GET: resolve
version and datastack against the client defaults (lines 202-205), fill
the URL mapping (datastack_name, table_name, version, in source order),
format the "annotations" endpoint template, normalize `annotation_ids`
to a list, and join the IDs into the comma-separated `annotation_ids`
query parameter (lines 217-219). The result is the request handed to
`self.session.get`. -/
def getAnnotationRequest (c : Client) (table_name : String) (annotation_ids : AnnIds)
    (materialization_version : Option Nat) (datastack_name : Option String) :
    Except PyErr GetRequest :=
  let mv := materialization_version.getD c.version
  let ds := datastack_name.getD c.datastack_name
  let m := dictSet (dictSet (dictSet c.default_url_mapping "datastack_name" ds)
    "table_name" table_name) "version" (toString mv)
  match formatMap (c.endpoints "annotations") m with
  | Except.error k => Except.error (PyErr.keyError k)
  | Except.ok url =>
    let ids := annIdsToList annotation_ids
    Except.ok ⟨url, [("annotation_ids", String.intercalate "," (ids.map toString))]⟩

/-- The state `query_table` has assembled by line 296, just before the
POST: the formatted URL, the request body dict `data`, the query
arguments dict `query_args`, and the `single_table` flag the source sets
in each branch. -/
structure QueryBuild where
  url : String
  data : List (String × PyVal)
  query_args : List (String × Int)
  single_table : Bool

/-- Source lines 286-293: conditionally store the four optional
arguments into `data`. Line 291 of the source stores `filter_equal_dict`
under the key `"filter_out_dict"` (not `"filter_equal_dict"`), and this
is mirrored here. -/
def applyFilters (data : List (String × PyVal))
    (filter_in_dict filter_out_dict filter_equal_dict select_columns : Option PyVal) :
    List (String × PyVal) :=
  let d1 := match filter_in_dict with
    | some v => dictSet data "filter_in_dict" v
    | none => data
  let d2 := match filter_out_dict with
    | some v => dictSet d1 "filter_out_dict" v
    | none => d1
  let d3 := match filter_equal_dict with
    | some v => dictSet d2 "filter_out_dict" v
    | none => d2
  match select_columns with
  | some v => dictSet d3 "select_columns" v
  | none => d3

/-- Source lines 294-295: `query_args` gets an `offset` entry when the
argument is given. -/
def offsetArgs (offset : Option Int) : List (String × Int) :=
  match offset with
  | some o => [("offset", o)]
  | none => []

/-- `query_table` (source lines 224-296) up to the POST: resolve
version and datastack against the client defaults (lines 266-269), fill
the URL mapping (lines 271-273), then dispatch on `len(tables)`
(lines 276-284): for a one-element list the element must be a `str`
(the `assert` of line 277, `AssertionError` otherwise) and the
"simple_query" template is formatted with it as `table_name`; for any
other length `data["tables"] = tables` and the "join_query" template is
formatted. Lines 286-295 then fill `data` and `query_args`. A
placeholder missing from the mapping makes `format_map` raise
`KeyError`. -/
def queryTableBuild (c : Client) (tables : List PyVal)
    (filter_in_dict filter_out_dict filter_equal_dict select_columns : Option PyVal)
    (offset : Option Int) (datastack_name : Option String)
    (materialization_version : Option Nat) : Except PyErr QueryBuild :=
  let mv := materialization_version.getD c.version
  let ds := datastack_name.getD c.datastack_name
  let m := dictSet (dictSet c.default_url_mapping "datastack_name" ds)
    "version" (toString mv)
  match tables with
  | [t0] =>
    match t0 with
    | PyVal.str s =>
      match formatMap (c.endpoints "simple_query") (dictSet m "table_name" s) with
      | Except.error k => Except.error (PyErr.keyError k)
      | Except.ok url =>
        Except.ok ⟨url,
          applyFilters [] filter_in_dict filter_out_dict filter_equal_dict select_columns,
          offsetArgs offset, true⟩
    | _ => Except.error PyErr.assertionError
  | _ =>
    match formatMap (c.endpoints "join_query") m with
    | Except.error k => Except.error (PyErr.keyError k)
    | Except.ok url =>
      Except.ok ⟨url,
        applyFilters (dictSet ([] : List (String × PyVal)) "tables" (PyVal.list tables))
          filter_in_dict filter_out_dict filter_equal_dict select_columns,
        offsetArgs offset, false⟩

/-- `query_table`, lines 297-298: the POST call
`self.session.post(url, data=json.dumps(data, cls=MEEncoder), params=query_params)`
first evaluates `json.dumps(data, cls=MEEncoder)` (a `TypeError` for an
unserializable body would surface here) and then reads the name
`query_params`, which is defined nowhere (the local dict built at lines
275/295 is `query_args`), so every call that reaches line 297 raises
`NameError` and no POST is ever issued. -/
def queryTablePost (c : Client) (tables : List PyVal)
    (filter_in_dict filter_out_dict filter_equal_dict select_columns : Option PyVal)
    (offset : Option Int) (datastack_name : Option String)
    (materialization_version : Option Nat) : Except PyErr Unit :=
  match queryTableBuild c tables filter_in_dict filter_out_dict filter_equal_dict
      select_columns offset datastack_name materialization_version with
  | Except.error e => Except.error e
  | Except.ok b =>
    match dumps (PyVal.dict b.data) with
    | none => Except.error PyErr.typeError
    | some _ => Except.error (PyErr.nameError "query_params")

/-- The names defined at module level in
`materializationengine.py` when `MaterializatonClient.__init__` runs:
the imports of lines 1-9 and the module-level definitions. The name
`AnnotationClientV2` used at line 68 is not among them (line 4 imports
`InfoServiceClientV2`, not `AnnotationClientV2`), and it is no Python
builtin either. -/
def moduleScopeNames : List String :=
  ["ClientBaseWithDataset", "ClientBaseWithDatastack", "ClientBase",
   "_api_versions", "_api_endpoints", "AuthClient", "annotation_common",
   "annotation_api_versions", "InfoServiceClientV2", "requests", "time",
   "json", "np", "date", "datetime", "SERVER_KEY", "MEEncoder",
   "MaterializationClient", "MaterializatonClient", "client_mapping"]

/-- `most_recent_version` (source lines 82-90): the method body is a
docstring and nothing else, so it returns `None`. -/
def most_recent_version (datastack_name : Option String) : Option Nat :=
  none

/-- The instance fields `MaterializatonClient.__init__` would assign
(source lines 71-72) if it ever got past line 68. -/
structure MatClientFields where
  _datastack_name : String
  _version : Option Nat

/-- `MaterializatonClient.__init__` (source lines 66-72): its first
statement, `super(AnnotationClientV2, self).__init__(...)` (line 68),
evaluates the name `AnnotationClientV2` before anything else; the name
is resolved against the module scope (and the builtins, which do not
contain it), so when it is absent a `NameError` is raised before either
instance field of lines 71-72 is assigned. -/
def materializatonClient_init (server_address : String)
    (auth_header : List (String × String)) (api_version : Nat)
    (endpoints : String → List Seg) (server_name : String)
    (datastack_name : String) (version : Option Nat) :
    Except PyErr MatClientFields :=
  if "AnnotationClientV2" ∈ moduleScopeNames then
    Except.ok { _datastack_name := datastack_name
                _version := most_recent_version none }
  else
    Except.error (PyErr.nameError "AnnotationClientV2")

/-- Example endpoint template registry for concrete witnesses: the
standard materialization-service URL shapes, with the server address
under the `me_server_address` key of the base mapping. -/
def exTemplates (k : String) : List Seg :=
  if k == "tables" then
    [Seg.field "me_server_address", Seg.lit "/materialize/datastack/",
     Seg.field "datastack_name", Seg.lit "/tables"]
  else if k == "table_count" then
    [Seg.field "me_server_address", Seg.lit "/materialize/datastack/",
     Seg.field "datastack_name", Seg.lit "/table/", Seg.field "table_name",
     Seg.lit "/count"]
  else if k == "annotations" then
    [Seg.field "me_server_address", Seg.lit "/materialize/datastack/",
     Seg.field "datastack_name", Seg.lit "/version/", Seg.field "version",
     Seg.lit "/table/", Seg.field "table_name", Seg.lit "/annotations"]
  else if k == "simple_query" then
    [Seg.field "me_server_address", Seg.lit "/materialize/datastack/",
     Seg.field "datastack_name", Seg.lit "/version/", Seg.field "version",
     Seg.lit "/table/", Seg.field "table_name", Seg.lit "/query"]
  else if k == "join_query" then
    [Seg.field "me_server_address", Seg.lit "/materialize/datastack/",
     Seg.field "datastack_name", Seg.lit "/version/", Seg.field "version",
     Seg.lit "/query"]
  else []

/-- A concrete client for witnesses and counterexamples: datastack
`example_ds`, default materialization version `5`. -/
def exampleClient : Client where
  server_address := "https://example.com"
  auth_header := []
  api_version := 2
  endpoints := exTemplates
  default_url_mapping := [("me_server_address", "https://example.com")]
  datastack_name := "example_ds"
  version := 5

example : queryTableBuild exampleClient [PyVal.str "cells"] none none none none none
    none none = Except.ok
      ⟨"https://example.com/materialize/datastack/example_ds/version/5/table/cells/query",
       [], [], true⟩ := rfl

lemma dictGet_dictSet_ne {A : Type} (k1 k2 : String) (v : A) (h : k1 ≠ k2) :
    ∀ d : List (String × A), dictGet (dictSet d k2 v) k1 = dictGet d k1 := by
  intro d
  induction d with
  | nil =>
    show (if k2 == k1 then some v else dictGet [] k1) = none
    rw [if_neg]
    · rfl
    · simp only [beq_iff_eq]
      exact fun e => h e.symm
  | cons p rest ih =>
    obtain ⟨ka, va⟩ := p
    show dictGet (if ka == k2 then (k2, v) :: rest else (ka, va) :: dictSet rest k2 v) k1 = _
    by_cases hk : ka = k2
    · rw [if_pos (by simp [hk])]
      show (if k2 == k1 then some v else dictGet rest k1) =
        (if ka == k1 then some va else dictGet rest k1)
      rw [if_neg (by simp only [beq_iff_eq]; exact fun e => h e.symm),
        if_neg (by simp only [beq_iff_eq, hk]; exact fun e => h e.symm)]
    · rw [if_neg (by simp [hk])]
      show (if ka == k1 then some va else dictGet (dictSet rest k2 v) k1) =
        (if ka == k1 then some va else dictGet rest k1)
      rw [ih]

lemma dictGet_applyFilters_of_ne (d : List (String × PyVal))
    (fi fo fe sc : Option PyVal) (k : String)
    (h1 : k ≠ "filter_in_dict") (h2 : k ≠ "filter_out_dict")
    (h3 : k ≠ "select_columns") :
    dictGet (applyFilters d fi fo fe sc) k = dictGet d k := by
  unfold applyFilters
  cases fi <;> cases fo <;> cases fe <;> cases sc <;>
    simp only [] <;>
    (repeat first
      | rw [dictGet_dictSet_ne k "filter_in_dict" _ h1]
      | rw [dictGet_dictSet_ne k "filter_out_dict" _ h2]
      | rw [dictGet_dictSet_ne k "select_columns" _ h3])

lemma encodeLeafList_map_int (l : List Int) :
    encodeLeafList (l.map PyVal.int) = some (l.map JVal.num) := by
  induction l with
  | nil => rfl
  | cons a t ih => simp [encodeLeafList, encodeLeaf, ih]

/-- C3: for every table name and every non-iterable scalar ID `x`, calling
`get_annotation` with `annotation_ids = x` produces exactly the same
request (same URL and same comma-joined `annotation_ids` query parameter)
as calling it with `annotation_ids = [x]`, all other arguments equal. -/
theorem get_annotation_scalar_eq_singleton_list (c : Client) (table_name : String)
    (x : Nat) (materialization_version : Option Nat) (datastack_name : Option String) :
    getAnnotationRequest c table_name (AnnIds.scalar x)
      materialization_version datastack_name =
    getAnnotationRequest c table_name (AnnIds.idList [x])
      materialization_version datastack_name := rfl

/-- C8: `get_annotation_count` never resolves the datastack, never issues
a GET, and never returns a count: every call raises `NameError` on the
undefined name `aligned_volume_name` (source line 137) with no request
issued. -/
theorem get_annotation_count_raises_nameerror (c : Client) (table_name : String)
    (datastack_name : Option String) (version : Option Nat)
    (net : GetRequest → HttpResponse) :
    getAnnotationCount c table_name datastack_name version net =
      (Except.error (PyErr.nameError "aligned_volume_name"), []) := rfl

/-- C10: for every argument tuple, `MaterializatonClient.__init__` raises
a `NameError` on the undefined name `AnnotationClientV2` (source line 68)
before any instance field is assigned, so no instance of the class is
ever constructed through its own initializer. -/
theorem materializaton_client_ctor_always_nameerror (server_address : String)
    (auth_header : List (String × String)) (api_version : Nat)
    (endpoints : String → List Seg) (server_name : String)
    (datastack_name : String) (version : Option Nat) :
    materializatonClient_init server_address auth_header api_version endpoints
      server_name datastack_name version =
    Except.error (PyErr.nameError "AnnotationClientV2") := by
  have h : "AnnotationClientV2" ∉ moduleScopeNames := by decide
  unfold materializatonClient_init
  exact if_neg h

/-- C4 (with the `get_annotation_count` slip exhibited): for `get_tables`,
`get_annotation` and `query_table`, omitting `datastack_name` /
`materialization_version` resolves them to the client defaults, and
supplying values behaves exactly like a client whose stored defaults were
those values, without mutating the client (the embedding is pure because
the source methods assign no attribute of `self` and
`default_url_mapping` hands each call a fresh copy); `get_annotation_count`,
however, raises `NameError` on `aligned_volume_name` instead of resolving
anything. -/
theorem optional_args_default_resolution_and_count_bug (c : Client)
    (table_name : String) (ids : AnnIds) (net : GetRequest → HttpResponse)
    (tables : List PyVal) (fi fo fe sc : Option PyVal) (off : Option Int)
    (d : String) (v : Nat) (dn : Option String) (vn : Option Nat) :
    (getTables c none none net = getTables c (some c.datastack_name) none net) ∧
    (getAnnotationRequest c table_name ids none none =
      getAnnotationRequest c table_name ids (some c.version) (some c.datastack_name)) ∧
    (queryTableBuild c tables fi fo fe sc off none none =
      queryTableBuild c tables fi fo fe sc off (some c.datastack_name) (some c.version)) ∧
    (getAnnotationRequest c table_name ids (some v) (some d) =
      getAnnotationRequest { c with datastack_name := d, version := v }
        table_name ids none none) ∧
    (queryTableBuild c tables fi fo fe sc off (some d) (some v) =
      queryTableBuild { c with datastack_name := d, version := v }
        tables fi fo fe sc off none none) ∧
    (getTables c (some d) none net =
      getTables { c with datastack_name := d } none none net) ∧
    (getAnnotationCount c table_name dn vn net =
      (Except.error (PyErr.nameError "aligned_volume_name"), [])) :=
  ⟨rfl, rfl, rfl, rfl, rfl, rfl, rfl⟩

/-- C9: the custom encoder used for `query_table` request bodies maps a
numeric array to a plain JSON array of numbers, a numpy `uint64` to a
plain integer, and a date or datetime to its ISO-8601 string (the last
two conjuncts pin the ISO-8601 shape on concrete values). -/
theorem me_encoder_serializes_arrays_uints_dates (l : List Int) (n : Nat)
    (y m d hh mm ss : Nat) :
    dumps (PyVal.ndarray l) = some (JVal.arr (l.map JVal.num)) ∧
    dumps (PyVal.uint64 n) = some (JVal.num (Int.ofNat n)) ∧
    dumps (PyVal.date y m d) = some (JVal.str (date_isoformat y m d)) ∧
    dumps (PyVal.datetime y m d hh mm ss) =
      some (JVal.str (datetime_isoformat y m d hh mm ss)) ∧
    date_isoformat 2023 4 5 = "2023-04-05" ∧
    datetime_isoformat 2023 4 5 6 7 8 = "2023-04-05T06:07:08" := by
  refine ⟨?_, ?_, ?_, ?_, rfl, rfl⟩ <;>
    simp [dumps, MEEncoder_default, encodeDefaultResult, encodeLeafList_map_int]

/-- Concrete inclusion filter for the filter-combination test:
`\x7b"cells": \x7b"a": [1]\x7d\x7d`. -/
def fiEx : PyVal := PyVal.dict [("cells", PyVal.dict [("a", PyVal.list [PyVal.int 1])])]

/-- Concrete exclusion filter: `\x7b"cells": \x7b"b": [2]\x7d\x7d`. -/
def foEx : PyVal := PyVal.dict [("cells", PyVal.dict [("b", PyVal.list [PyVal.int 2])])]

/-- Concrete equality filter: `\x7b"cells": \x7b"c": 3\x7d\x7d`. -/
def feEx : PyVal := PyVal.dict [("cells", PyVal.dict [("c", PyVal.int 3)])]

/-- C1 (the source line 291 slip, evaluated): with all three filter
arguments given, the assembled body keeps `filter_in_dict`, has NO
`filter_equal_dict` key at all, and its `filter_out_dict` entry holds the
equality filter (the exclusion filter was overwritten); the serialized
JSON body accordingly has exactly two filter keys. -/
theorem query_table_filter_equal_overwrites_filter_out :
    ((queryTableBuild exampleClient [PyVal.str "cells"] (some fiEx) (some foEx)
        (some feEx) none none none none).map (fun b =>
          (dictGet b.data "filter_in_dict", dictGet b.data "filter_out_dict",
           dictGet b.data "filter_equal_dict"))
      = Except.ok (some fiEx, some feEx, none)) ∧
    ((queryTableBuild exampleClient [PyVal.str "cells"] (some fiEx) (some foEx)
        (some feEx) none none none none).map (fun b => dumps (PyVal.dict b.data))
      = Except.ok (some (JVal.obj
          [("filter_in_dict", JVal.obj [("cells", JVal.obj [("a", JVal.arr [JVal.num 1])])]),
           ("filter_out_dict", JVal.obj [("cells", JVal.obj [("c", JVal.num 3)])])]))) :=
  ⟨rfl, rfl⟩

/-- C5 (counterexample): the spec scenario calls
`query_table([["cells"]])`; its table list has the one-element list
`["cells"]` as sole element, so the `assert type(tables[0]) == str` of
source line 277 fails and no request URL is ever built. -/
theorem query_table_nested_cells_call_assertion_error :
    queryTableBuild exampleClient [PyVal.list [PyVal.str "cells"]]
      none none none none none none none = Except.error PyErr.assertionError := rfl

/-- C5 (amended): with the client configured with datastack `example_ds`
and default version 5, `query_table(["cells"])` builds the simple-query
URL with datastack `example_ds`, version 5 and table `cells` (empty body,
empty query args), and the POST of line 297 is then never issued because
it reads the undefined name `query_params`. -/
theorem query_table_cells_scenario_build_and_post :
    (queryTableBuild exampleClient [PyVal.str "cells"] none none none none none
        none none = Except.ok
      ⟨"https://example.com/materialize/datastack/example_ds/version/5/table/cells/query",
       [], [], true⟩) ∧
    (queryTablePost exampleClient [PyVal.str "cells"] none none none none none
        none none = Except.error (PyErr.nameError "query_params")) := ⟨rfl, rfl⟩

/-- C6 (the source line 298 slip, evaluated): the call
`query_table([["cells","segments"], ["cell_id","seg_id"]])` does build
the join-query URL and a body whose `tables` entry carries both table
names and the join column pair, but the POST itself is never issued:
line 298 reads the undefined name `query_params` and raises `NameError`. -/
theorem query_table_join_build_and_post_nameerror :
    (queryTableBuild exampleClient
        [PyVal.list [PyVal.str "cells", PyVal.str "segments"],
         PyVal.list [PyVal.str "cell_id", PyVal.str "seg_id"]]
        none none none none none none none =
      Except.ok
        ⟨"https://example.com/materialize/datastack/example_ds/version/5/query",
         [("tables", PyVal.list
            [PyVal.list [PyVal.str "cells", PyVal.str "segments"],
             PyVal.list [PyVal.str "cell_id", PyVal.str "seg_id"]])],
         [], false⟩) ∧
    (queryTablePost exampleClient
        [PyVal.list [PyVal.str "cells", PyVal.str "segments"],
         PyVal.list [PyVal.str "cell_id", PyVal.str "seg_id"]]
        none none none none none none none =
      Except.error (PyErr.nameError "query_params")) := ⟨rfl, rfl⟩

/-- C2 (counterexample): a table list of length exactly one whose sole
element is not a `str` (here the spec's own `[["cells"]]` shape) does not
have its URL built from the simple-query template: the assert of source
line 277 fails first. -/
theorem query_table_singleton_list_nonstring_no_url :
    queryTableBuild exampleClient [PyVal.int 7]
      none none none none none none none = Except.error PyErr.assertionError := rfl

/-- C2 (amended): for a table list of length one whose sole element is a
string `s`, `query_table` builds its URL from the simple-query endpoint
template (with `s` as `table_name`) and puts no `tables` entry in the
body; for a length-one list whose element is not a string, the assert of
line 277 fails; for a table list of length greater than one, the URL is
built from the join-query endpoint template and the table list is placed
in the request body under the `tables` key. -/
theorem query_table_dispatch_by_table_list (c : Client) (tables : List PyVal)
    (fi fo fe sc : Option PyVal) (off : Option Int) (dn : Option String)
    (mv : Option Nat) (s u : String) :
    ((tables = [PyVal.str s] ∧
      formatMap (c.endpoints "simple_query")
        (dictSet (dictSet (dictSet c.default_url_mapping "datastack_name"
          (dn.getD c.datastack_name)) "version" (toString (mv.getD c.version)))
          "table_name" s) = Except.ok u) →
      queryTableBuild c tables fi fo fe sc off dn mv =
        Except.ok ⟨u, applyFilters [] fi fo fe sc, offsetArgs off, true⟩ ∧
      dictGet (applyFilters [] fi fo fe sc) "tables" = none) ∧
    ((1 < tables.length ∧
      formatMap (c.endpoints "join_query")
        (dictSet (dictSet c.default_url_mapping "datastack_name"
          (dn.getD c.datastack_name)) "version" (toString (mv.getD c.version))) =
        Except.ok u) →
      queryTableBuild c tables fi fo fe sc off dn mv =
        Except.ok ⟨u, applyFilters [("tables", PyVal.list tables)] fi fo fe sc,
          offsetArgs off, false⟩ ∧
      dictGet (applyFilters [("tables", PyVal.list tables)] fi fo fe sc) "tables" =
        some (PyVal.list tables)) ∧
    (∀ x, tables = [x] → (∀ t, x ≠ PyVal.str t) →
      queryTableBuild c tables fi fo fe sc off dn mv =
        Except.error PyErr.assertionError) := by
  refine ⟨?_, ?_, ?_⟩
  · rintro ⟨rfl, h⟩
    refine ⟨?_, ?_⟩
    · simp only [queryTableBuild]
      rw [h]
    · rw [dictGet_applyFilters_of_ne _ _ _ _ _ _ (by decide) (by decide) (by decide)]
      rfl
  · rintro ⟨hlen, h⟩
    match tables, hlen with
    | a :: b :: rest, _ =>
      refine ⟨?_, ?_⟩
      · simp only [queryTableBuild]
        rw [h]
        rfl
      · rw [dictGet_applyFilters_of_ne _ _ _ _ _ _ (by decide) (by decide) (by decide)]
        rfl
  · rintro x rfl hx
    cases x with
    | str t => exact absurd rfl (hx t)
    | noneV => rfl
    | int n => rfl
    | list l => rfl
    | dict l => rfl
    | ndarray l => rfl
    | uint64 n => rfl
    | date y m d => rfl
    | datetime y m d hh mm ss => rfl

theorem query_table_dispatch_by_table_list_witness :
    (queryTableBuild exampleClient [PyVal.str "cells"] none none none none none
        none none = Except.ok
      ⟨"https://example.com/materialize/datastack/example_ds/version/5/table/cells/query",
       [], [], true⟩) ∧
    (queryTableBuild exampleClient
        [PyVal.list [PyVal.str "cells", PyVal.str "segments"],
         PyVal.list [PyVal.str "cell_id", PyVal.str "seg_id"]]
        none none none none none none none =
      Except.ok
        ⟨"https://example.com/materialize/datastack/example_ds/version/5/query",
         [("tables", PyVal.list
            [PyVal.list [PyVal.str "cells", PyVal.str "segments"],
             PyVal.list [PyVal.str "cell_id", PyVal.str "seg_id"]])],
         [], false⟩) ∧
    (queryTableBuild exampleClient [PyVal.list [PyVal.str "cells"]]
        none none none none none none none = Except.error PyErr.assertionError) := by
  refine ⟨?_, ?_, ?_⟩
  · exact ((query_table_dispatch_by_table_list exampleClient [PyVal.str "cells"]
      none none none none none none none "cells"
      "https://example.com/materialize/datastack/example_ds/version/5/table/cells/query").1
      ⟨rfl, rfl⟩).1
  · exact ((query_table_dispatch_by_table_list exampleClient
      [PyVal.list [PyVal.str "cells", PyVal.str "segments"],
       PyVal.list [PyVal.str "cell_id", PyVal.str "seg_id"]]
      none none none none none none none "unused"
      "https://example.com/materialize/datastack/example_ds/version/5/query").2.1
      ⟨by decide, rfl⟩).1
  · exact (query_table_dispatch_by_table_list exampleClient
      [PyVal.list [PyVal.str "cells"]] none none none none none none none "unused"
      "unused").2.2 (PyVal.list [PyVal.str "cells"]) rfl
      (fun t ht => PyVal.noConfusion ht)

/-- A server that answers every request with 304 Not Modified and the
JSON body `["t1"]`. -/
def net304 : GetRequest → HttpResponse := fun _ => ⟨304, JVal.arr [JVal.str "t1"]⟩

/-- A server that answers every request with 200 and the JSON body `[]`. -/
def net200 : GetRequest → HttpResponse := fun _ => ⟨200, JVal.arr []⟩

/-- C7 (counterexample): a 304 response is not a 2xx success, yet
`get_tables` raises nothing on it and returns the parsed body:
`raise_for_status` only raises for status codes at or above 400. -/
theorem get_tables_304_returns_body :
    ¬ (200 ≤ 304 ∧ 304 < 300) ∧
    getTables exampleClient none none net304 =
      (Except.ok (JVal.arr [JVal.str "t1"]),
       [⟨"https://example.com/materialize/datastack/example_ds/tables", []⟩]) :=
  ⟨by omega, rfl⟩

/-- C7 (amended): whenever the "tables" endpoint template formats to a
URL `u`, `get_tables` issues exactly the one GET request for `u` (no
retry), returns the parsed JSON body when the response status is below
400 (every 2xx, but also 3xx), and raises an error carrying the status
code and the response body for every status at or above 400 (all 4xx and
5xx). -/
theorem get_tables_status_dispatch (c : Client) (dn : Option String)
    (v : Option Nat) (net : GetRequest → HttpResponse) (u : String)
    (h : formatMap (c.endpoints "tables")
      (dictSet c.default_url_mapping "datastack_name" (dn.getD c.datastack_name)) =
      Except.ok u) :
    ((net ⟨u, []⟩).status_code < 400 →
      getTables c dn v net = (Except.ok (net ⟨u, []⟩).body, [⟨u, []⟩])) ∧
    (400 ≤ (net ⟨u, []⟩).status_code →
      getTables c dn v net =
        (Except.error (PyErr.httpError (net ⟨u, []⟩).status_code (net ⟨u, []⟩).body),
         [⟨u, []⟩])) := by
  constructor
  · intro hs
    simp only [getTables]
    rw [h]
    simp only [raise_for_status]
    rw [if_neg (by omega)]
  · intro hs
    simp only [getTables]
    rw [h]
    simp only [raise_for_status]
    rw [if_pos hs]

theorem get_tables_status_dispatch_witness :
    getTables exampleClient none none net200 =
      (Except.ok (JVal.arr []),
       [⟨"https://example.com/materialize/datastack/example_ds/tables", []⟩]) :=
  (get_tables_status_dispatch exampleClient none none net200
    "https://example.com/materialize/datastack/example_ds/tables" rfl).1 (by decide)
